import Mathlib

/-!
Shallow embedding of the fzvoid command-line utility (src/src/main.rs).

The program voids Fat Zebra purchase transactions: for each reference it
fetches the gateway's internal transaction id (`fetch_purchase`) and then
issues a void request (`void_transaction`), either for a single reference
or for every line of an input file.

Modelling conventions:
 - JSON response bodies are modelled as an abstract syntax tree `Json`;
   a body that is not syntactically valid JSON is `none : Option Json`.
   The serde decode of the `FetchResponses` struct is translated field by
   field from the Rust derive attributes and `deserialize_optional_field`,
   including the streaming behaviour of `serde_json::from_str`: a slot
   decode that fails on a scalar is recovered (the scalar is consumed while
   the `invalid_type` error is built), while a failure on a container-shaped
   or partially-consumed value leaves the parser mid-value, so the swallowed
   error resurfaces as a failure of the whole envelope decode. Error message
   strings of the model are nominal. (The duplicate-key error of serde_json
   is not modelled; no verified property depends on it.)
 - HTTP is an oracle: each call of the workflow is given the gateway's
   answer (`GatewayResponse`) for its fetch and for its void request, and
   the embedding records the requests the code would issue. Request headers
   are not recorded; no verified property concerns them. Body-read failures
   are folded into `transportErr`.
 - A Rust panic (any `unwrap` on `None`, `first` on an empty `Vec`) is the
   `Proc.panicked` outcome; output printed before the panic is kept.
-/

namespace Fzvoid

/-- Abstract syntax of a parsed JSON document. -/
inductive Json where
  | null : Json
  | bool (b : Bool) : Json
  | num (n : Int) : Json
  | str (s : String) : Json
  | arr (elems : List Json) : Json
  | obj (fields : List (String × Json)) : Json

/-- The `response` payload of the envelope (Rust struct `FetchResponse`). -/
structure FetchResponse where
  id : String
deriving DecidableEq

/-- The `errors` payload, a transparent list of strings (Rust struct `FetchErrors`). -/
structure FetchErrors where
  errors : List String
deriving DecidableEq

/-- The response envelope (Rust struct `FetchResponses`): success flag plus two
doubly-optional slots, exactly as in the serde derive. -/
structure FetchResponses where
  successful : Bool
  response : Option (Option FetchResponse)
  errors : Option (Option FetchErrors)
deriving DecidableEq

/-- First binding of a key in a JSON object, as serde field lookup. -/
def lookupField : List (String × Json) → String → Option Json
  | [], _ => none
  | (k, v) :: rest, name => if k = name then some v else lookupField rest name

/-- Outcome of decoding one payload value with serde_json's streaming parser:
`success` carries the value; `cleanFail` is an `invalid_type` failure on a
scalar, which `peek_invalid_type` consumes whole so the parser stays in sync;
`poison` is a failure on a container-shaped or partially-consumed value that
leaves the parser mid-value, so the enclosing map's next structural token
fails the whole decode even though the slot error itself was swallowed. -/
inductive DecodeOutcome (T : Type) where
  | success (t : T) : DecodeOutcome T
  | cleanFail : DecodeOutcome T
  | poison : DecodeOutcome T

/-- Serde decode of the Rust struct `FetchResponse` under serde_json: an
object succeeds when it has a string field `id` (unknown fields are ignored)
and otherwise aborts mid-map (`poison`); a sequence decodes the struct
positionally, so a one-element string array succeeds and any other array
aborts mid-sequence; a scalar is consumed while the type error is built. -/
def decodeFetchResponse : Json → DecodeOutcome FetchResponse
  | Json.obj fields =>
    match lookupField fields "id" with
    | some (Json.str s) => DecodeOutcome.success { id := s }
    | _ => DecodeOutcome.poison
  | Json.arr [Json.str s] => DecodeOutcome.success { id := s }
  | Json.arr _ => DecodeOutcome.poison
  | _ => DecodeOutcome.cleanFail

/-- Serde decode of `Vec<String>`: every element must be a JSON string. -/
def decodeStringList : List Json → Option (List String)
  | [] => some []
  | Json.str s :: rest => (decodeStringList rest).map (fun xs => s :: xs)
  | _ => none

/-- Serde decode of the transparent Rust struct `FetchErrors` (`Vec<String>`)
under serde_json: an all-string array succeeds; an array with a non-string
element fails mid-sequence (`poison`), as does a map whose opening brace the
`invalid_type` report does not consume; a mismatched scalar is consumed. -/
def decodeFetchErrors : Json → DecodeOutcome FetchErrors
  | Json.arr elems =>
    match decodeStringList elems with
    | some xs => DecodeOutcome.success { errors := xs }
    | none => DecodeOutcome.poison
  | Json.obj _ => DecodeOutcome.poison
  | _ => DecodeOutcome.cleanFail

/-- Decode of one doubly-optional envelope slot, translated from
`deserialize_optional_field` together with the struct-level `serde(default)`
and serde_json's streaming recovery: an absent field, a `null` field (the
`Option` layer consumes the `null`), and a cleanly-failing scalar all yield
the absent slot `some none`; a well-formed value yields `some (some (some
t))`; a poisoning value yields `none`, failing the whole envelope decode. -/
def decodeSlot {T : Type} (decT : Json → DecodeOutcome T)
    (fields : List (String × Json)) (name : String) : Option (Option (Option T)) :=
  match lookupField fields name with
  | none => some none
  | some Json.null => some none
  | some v =>
    match decT v with
    | DecodeOutcome.success t => some (some (some t))
    | DecodeOutcome.cleanFail => some none
    | DecodeOutcome.poison => none

/-- Serde decode of the envelope struct `FetchResponses`: the body must be an
object; `successful` defaults to `false` when absent and must be a JSON bool
when present; the `response` and `errors` slots go through `decodeSlot` —
absent on a missing, null or scalar-mismatched field, but a poisoning field
value fails the whole decode (the swallowed error resurfaces at the next
structural token). The real failure point depends on field order, but every
such body fails, which is all the Except level observes. -/
def decodeFetchResponses : Json → Except String FetchResponses
  | Json.obj fields =>
    match decodeSlot decodeFetchResponse fields "response",
          decodeSlot decodeFetchErrors fields "errors" with
    | some rs, some es =>
      match lookupField fields "successful" with
      | none => Except.ok { successful := false, response := rs, errors := es }
      | some (Json.bool b) => Except.ok { successful := b, response := rs, errors := es }
      | some _ => Except.error "invalid type for field successful"
    | _, _ => Except.error "expected comma or end of object"
  | _ => Except.error "expected struct FetchResponses"

/-- Full decode of a response body: an unparseable body (`none`) is the
`serde_json` parse error; otherwise decode the envelope from the JSON tree. -/
def parseFetchResponses : Option Json → Except String FetchResponses
  | none => Except.error "invalid JSON"
  | some j => decodeFetchResponses j

/-- The four endpoint constants (Rust struct `Url`). -/
structure Url where
  sandbox_fetch_url : String
  production_fetch_url : String
  sandbox_void_url : String
  production_void_url : String

/-- The `Default`/`Url::new` values from the source. -/
def Url.new : Url :=
  { sandbox_fetch_url := "https://gateway.pmnts-sandbox.io/v1.0/purchases/",
    production_fetch_url := "https://gateway.pmnts.io/v1.0/purchases/",
    sandbox_void_url := "https://gateway.pmnts-sandbox.io/v1.0/purchases/void?id=",
    production_void_url := "https://gateway.pmnts.io/v1.0/purchases/void?id=" }

/-- `Url::get_fetch_url`: the literal merchant ids `"SC-scnet"` and `"TEST"`
select the sandbox fetch base, anything else the production one. -/
def Url.get_fetch_url (u : Url) (merchant_id : String) : String :=
  if merchant_id = "SC-scnet" then u.sandbox_fetch_url
  else if merchant_id = "TEST" then u.sandbox_fetch_url
  else u.production_fetch_url

/-- `Url::get_void_url`: same selection for the void base. -/
def Url.get_void_url (u : Url) (merchant_id : String) : String :=
  if merchant_id = "SC-scnet" then u.sandbox_void_url
  else if merchant_id = "TEST" then u.sandbox_void_url
  else u.production_void_url

/-- The populated command-line parameters (Rust struct `Params`). -/
structure Params where
  username : String
  token : String
  reference : String
  filename : String
deriving DecidableEq

/-- HTTP method of an issued request. -/
inductive Method where
  | get : Method
  | post : Method
deriving DecidableEq

/-- An HTTP request the program issues (headers not recorded). -/
structure HttpRequest where
  method : Method
  url : String
deriving DecidableEq

/-- The gateway's answer to one request: a transport-level failure, or a
response body given as parsed JSON (`none` for a body that is not JSON). -/
inductive GatewayResponse where
  | transportErr : GatewayResponse
  | body (parsed : Option Json) : GatewayResponse

/-- Termination state of a code path: normal return, an `Err` return carrying
its message, or a Rust panic. -/
inductive Proc where
  | ok : Proc
  | err (msg : String) : Proc
  | panicked : Proc
deriving DecidableEq

/-- Result of `void_transaction`: `Ok(envelope)`, `Err(message)`, or a panic. -/
inductive VoidResult where
  | ok (b : FetchResponses) : VoidResult
  | err (msg : String) : VoidResult
  | panicked : VoidResult
deriving DecidableEq

/-- Observable behaviour of a run: issued requests in order, stdout lines in
order, and the termination state. -/
structure RunResult where
  requests : List HttpRequest
  stdout : List String
  proc : Proc
deriving DecidableEq

/-- Rust `{:?}` formatting of a string as used in the failure println lines
(escaping of special characters inside the string is not modelled). -/
def debugFmt (s : String) : String := "\"" ++ s ++ "\""

/-- The GET request built by `fetch_purchase`: fetch base selected by the
username, with the reference appended verbatim. -/
def fetchRequest (p : Params) (refx : String) : HttpRequest :=
  { method := Method.get, url := Url.new.get_fetch_url p.username ++ refx }

/-- `FetchResponses::fetch_purchase`: issue the GET, propagate transport
failures as `Err`, and map a failed body decode to the
`"00Error voiding transaction: "` error; otherwise return the envelope. -/
def fetch_purchase (p : Params) (refx : String) (resp : GatewayResponse) :
    HttpRequest × Except String FetchResponses :=
  (fetchRequest p refx,
    match resp with
    | GatewayResponse.transportErr => Except.error "transport error"
    | GatewayResponse.body parsed =>
      match parseFetchResponses parsed with
      | Except.ok r => Except.ok r
      | Except.error _ => Except.error ("00Error voiding transaction: " ++ refx))

/-- The POST request built by `void_transaction`: void base selected by the
username, with the internal id appended verbatim. -/
def voidRequest (p : Params) (id : String) : HttpRequest :=
  { method := Method.post, url := Url.new.get_void_url p.username ++ id }

/-- `FetchResponses::void_transaction`: issue the POST; on a decoded envelope
with `successful` print the `Voided` line and return it; on an unsuccessful
envelope print the failure line built from `errors.unwrap().unwrap().errors
.first().unwrap()` — a panic when `errors` is absent or empty — then return
the `"01Error"` message; a body that fails to decode yields the `"02Error"`
message; a transport failure propagates as `Err`. -/
def void_transaction (p : Params) (refx : String) (id : String)
    (resp : GatewayResponse) : HttpRequest × List String × VoidResult :=
  (voidRequest p id,
    match resp with
    | GatewayResponse.transportErr => ([], VoidResult.err "transport error")
    | GatewayResponse.body parsed =>
      match parseFetchResponses parsed with
      | Except.error _ => ([], VoidResult.err ("02Error voiding transaction: " ++ refx))
      | Except.ok b =>
        if b.successful then
          ([refx ++ " - Voided"], VoidResult.ok b)
        else
          match b.errors with
          | some (some es) =>
            match es.errors.head? with
            | some e =>
              ([refx ++ " - Voiding failed - " ++ debugFmt e],
                VoidResult.err ("01Error voiding transaction: " ++ refx))
            | none => ([], VoidResult.panicked)
          | _ => ([], VoidResult.panicked))

/-- `fetch_n_void`: the per-reference workflow. The reference is the explicit
argument when given, else `params.reference`. A fetch `Err` becomes the
`"Error fetching transaction: "` outcome. On `successful=true` the code
unwraps `response` twice — a panic when the slot is absent — and runs the
void; when the void returns `Ok` it prints one more `Voiding failed` line
built by unwrapping the void envelope's `errors` (a panic when absent or
empty) and returns `Ok`; a void `Err` becomes `"Error voiding transaction: "`.
On `successful=false` it prints the failure line by unwrapping the fetch
envelope's `errors` (again a panic when absent or empty) and returns the
`"Could not fetch transaction: "` outcome. -/
def fetch_n_void (p : Params) (reference : Option String)
    (fRes vRes : GatewayResponse) : RunResult :=
  let refx := match reference with
    | some v => v
    | none => p.reference
  let rest : List HttpRequest × List String × Proc :=
    match (fetch_purchase p refx fRes).2 with
    | Except.error _ => ([], [], Proc.err ("Error fetching transaction: " ++ refx))
    | Except.ok fe =>
      if fe.successful then
        match fe.response with
        | some (some r) =>
          let v := void_transaction p refx r.id vRes
          match v.2.2 with
          | VoidResult.ok rr =>
            match rr.errors with
            | some (some es) =>
              match es.errors.head? with
              | some e =>
                ([v.1], v.2.1 ++ [refx ++ " - Voiding failed - " ++ debugFmt e], Proc.ok)
              | none => ([v.1], v.2.1, Proc.panicked)
            | _ => ([v.1], v.2.1, Proc.panicked)
          | VoidResult.err _ => ([v.1], v.2.1, Proc.err ("Error voiding transaction: " ++ refx))
          | VoidResult.panicked => ([v.1], v.2.1, Proc.panicked)
        | _ => ([], [], Proc.panicked)
      else
        match fe.errors with
        | some (some es) =>
          match es.errors.head? with
          | some e =>
            ([], [refx ++ " - Voiding failed - " ++ debugFmt e],
              Proc.err ("Could not fetch transaction: " ++ refx))
          | none => ([], [], Proc.panicked)
        | _ => ([], [], Proc.panicked)
  { requests := fetchRequest p refx :: rest.1, stdout := rest.2.1, proc := rest.2.2 }

/-- Segments of a character list split at LF characters; always nonempty,
with an empty final segment when the input ends in LF. -/
def splitOnNl : List Char → List (List Char)
  | [] => [[]]
  | c :: rest =>
    if c = '\n' then [] :: splitOnNl rest
    else
      match splitOnNl rest with
      | [] => [[c]]
      | l :: ls => (c :: l) :: ls

/-- Rust `BufRead::lines` drops a line's trailing LF and then a trailing CR. -/
def stripCRChars (l : List Char) : List Char :=
  if l.getLast? = some '\r' then l.dropLast else l

/-- Turn LF-split segments into the lines `BufRead::lines` yields: a final
empty segment is the end of a terminated file and produces no line; a final
nonempty segment is an unterminated line kept verbatim (no CR strip); every
other segment had an LF terminator, so its trailing CR is stripped. -/
def linesAux : List (List Char) → List String
  | [] => []
  | [last] => if last = [] then [] else [String.mk last]
  | seg :: rest => String.mk (stripCRChars seg) :: linesAux rest

/-- The line sequence `BufRead::lines` yields for a file content.
Empty lines are kept and no whitespace is trimmed. -/
def rustLines (s : String) : List String :=
  linesAux (splitOnNl s.toList)

/-- `read_file`: an unopenable file yields the empty vector, an opened file
yields its lines; the file system is the `Option String` content oracle. -/
def read_file (content : Option String) : List String :=
  match content with
  | none => []
  | some s => rustLines s

/-- Population of `Params` by `main`'s match on `(filename, reference)`:
`filename` wins when both flags are given; when neither is given the match
falls to `_ => ()` and every field keeps its empty default. -/
def buildParams (username token : String) (reference filename : Option String) : Params :=
  match filename, reference with
  | some f, none => { username := username, token := token, reference := "", filename := f }
  | none, some r => { username := username, token := token, reference := r, filename := "" }
  | some f, some _ => { username := username, token := token, reference := "", filename := f }
  | none, none => { username := "", token := "", reference := "", filename := "" }

/-- The batch loop of `main`: run the workflow per line with `let _ = ...`
(an `Err` is discarded and the loop continues; a panic aborts the process),
then return `Ok(())`. The oracle gives each line's fetch and void answers by
position. -/
def runBatch (p : Params) (oracle : Nat → GatewayResponse × GatewayResponse) :
    List String → RunResult
  | [] => { requests := [], stdout := [], proc := Proc.ok }
  | l :: ls =>
    let r := fetch_n_void p (some l) (oracle 0).1 (oracle 0).2
    if r.proc = Proc.panicked then
      { requests := r.requests, stdout := r.stdout, proc := Proc.panicked }
    else
      let rest := runBatch p (fun i => oracle (i + 1)) ls
      { requests := r.requests ++ rest.requests, stdout := r.stdout ++ rest.stdout,
        proc := rest.proc }

/-- Spec-side batch semantics, for comparison with `runBatch`: the driver
always drains the whole input, concatenating every reference's requests and
output in input order. -/
def drainAll (p : Params) (oracle : Nat → GatewayResponse × GatewayResponse) :
    List String → List HttpRequest × List String
  | [] => ([], [])
  | l :: ls =>
    let r := fetch_n_void p (some l) (oracle 0).1 (oracle 0).2
    let rest := drainAll p (fun i => oracle (i + 1)) ls
    (r.requests ++ rest.1, r.stdout ++ rest.2)

/-- `main` after argument parsing: populate `Params`; with an empty filename
run the single-reference workflow (its `Result` is the process result);
otherwise read the file, fail with the `"Error opening file"` message when
the line vector is empty, else run the batch and return `Ok(())`. -/
def mainRun (username token : String) (reference filename : Option String)
    (fileContent : Option String)
    (oracle : Nat → GatewayResponse × GatewayResponse) : RunResult :=
  let p := buildParams username token reference filename
  if p.filename.length = 0 then
    fetch_n_void p none (oracle 0).1 (oracle 0).2
  else
    let void_trxs := read_file fileContent
    if void_trxs.isEmpty then
      { requests := [], stdout := [],
        proc := Proc.err ("Error opening file: " ++ "please check file and path") }
    else
      runBatch p oracle void_trxs

/-- Sandbox-merchant parameters used by concrete runs. -/
def pTest : Params := { username := "TEST", token := "tok", reference := "", filename := "" }

/-- An oracle whose every request fails at the transport level. -/
def orcT : Nat → GatewayResponse × GatewayResponse :=
  fun _ => (GatewayResponse.transportErr, GatewayResponse.transportErr)

/-- Production-merchant parameters with a batch filename, used by concrete runs. -/
def pRefs : Params := { username := "u", token := "t", reference := "", filename := "refs.txt" }

/-- C1: a fetch envelope with `successful=true` but no usable `response.id`
does not reach an error outcome in the code. With the `response` slot absent
the workflow panics at `fe.response.unwrap()` before any void request; with a
present but empty `id` it does issue a void request (with the empty id
appended to the void URL). Either behaviour contradicts the claimed
`DecodeError`-style error outcome. -/
theorem c1_successful_without_id :
    fetch_n_void pTest (some "r1")
        (GatewayResponse.body (some (Json.obj [("successful", Json.bool true)])))
        GatewayResponse.transportErr
      = { requests := [{ method := Method.get,
                         url := "https://gateway.pmnts-sandbox.io/v1.0/purchases/r1" }],
          stdout := [], proc := Proc.panicked }
    ∧ (fetch_n_void pTest (some "r1")
        (GatewayResponse.body (some (Json.obj [("successful", Json.bool true),
            ("response", Json.obj [("id", Json.str "")])])))
        GatewayResponse.transportErr).requests
      = [{ method := Method.get,
           url := "https://gateway.pmnts-sandbox.io/v1.0/purchases/r1" },
         { method := Method.post,
           url := "https://gateway.pmnts-sandbox.io/v1.0/purchases/void?id=" }] := by
  constructor
  · decide
  · decide

/-- C2: after a successful fetch and a void envelope with `successful=true`,
the workflow does not emit exactly the single `Voided` line. When the void
envelope also carries an `errors` list the batch-path branch prints a second,
mis-labelled `Voiding failed` line; when `errors` is absent the extra print
panics on `r.errors.unwrap()` right after the `Voided` line. -/
theorem c2_extra_line_after_successful_void :
    fetch_n_void pTest (some "abc-1")
        (GatewayResponse.body (some (Json.obj [("successful", Json.bool true),
            ("response", Json.obj [("id", Json.str "txn-9")])])))
        (GatewayResponse.body (some (Json.obj [("successful", Json.bool true),
            ("errors", Json.arr [Json.str "already voided"])])))
      = { requests := [{ method := Method.get,
                         url := "https://gateway.pmnts-sandbox.io/v1.0/purchases/abc-1" },
                       { method := Method.post,
                         url := "https://gateway.pmnts-sandbox.io/v1.0/purchases/void?id=txn-9" }],
          stdout := ["abc-1 - Voided", "abc-1 - Voiding failed - \"already voided\""],
          proc := Proc.ok }
    ∧ fetch_n_void pTest (some "abc-1")
        (GatewayResponse.body (some (Json.obj [("successful", Json.bool true),
            ("response", Json.obj [("id", Json.str "txn-9")])])))
        (GatewayResponse.body (some (Json.obj [("successful", Json.bool true)])))
      = { requests := [{ method := Method.get,
                         url := "https://gateway.pmnts-sandbox.io/v1.0/purchases/abc-1" },
                       { method := Method.post,
                         url := "https://gateway.pmnts-sandbox.io/v1.0/purchases/void?id=txn-9" }],
          stdout := ["abc-1 - Voided"], proc := Proc.panicked } := by
  constructor
  · decide
  · decide

/-- C3 (counterexample): with neither flag supplied the program does not exit
quietly with no request: it runs the workflow with an empty reference, issues
a GET to the production purchases base URL, and returns the fetch error. -/
theorem c3_counterexample :
    (mainRun "u" "t" none none none orcT).requests
      = [{ method := Method.get, url := "https://gateway.pmnts.io/v1.0/purchases/" }]
    ∧ (mainRun "u" "t" none none none orcT).proc
      = Proc.err ("Error fetching transaction: " ++ "") := by
  constructor
  · decide
  · decide

/-- C3 (amended): with neither `--reference` nor `--filename` the program
falls through to the single-reference path with every parameter left empty:
it runs the void workflow once on the empty reference — the first (and
possibly only) HTTP request is a GET to the production purchases base URL
with nothing appended — and exits with that workflow's status. -/
theorem c3_no_flags_runs_empty_reference :
    ∀ (u t : String) (fc : Option String)
      (orc : Nat → GatewayResponse × GatewayResponse),
      mainRun u t none none fc orc
        = fetch_n_void { username := "", token := "", reference := "", filename := "" }
            none (orc 0).1 (orc 0).2
      ∧ (mainRun u t none none fc orc).requests.head?
        = some { method := Method.get, url := "https://gateway.pmnts.io/v1.0/purchases/" } := by
  intro u t fc orc
  exact ⟨rfl, rfl⟩

/-- C4: for every response body — any byte sequence, modelled as `none` when
it is not JSON and as its parse tree otherwise — the decode is a total
function returning either a well-formed envelope or an error value, and both
callers map the error to their decode-error result (`"00Error..."` on the
fetch path, `"02Error..."` on the void path) without panicking. -/
theorem c4_decode_total_and_mapped :
    ∀ (p : Params) (refx id : String) (parsed : Option Json),
      ((∃ r, parseFetchResponses parsed = Except.ok r)
        ∨ ∃ m, parseFetchResponses parsed = Except.error m)
      ∧ (∀ m, parseFetchResponses parsed = Except.error m →
          (fetch_purchase p refx (GatewayResponse.body parsed)).2
              = Except.error ("00Error voiding transaction: " ++ refx)
          ∧ void_transaction p refx id (GatewayResponse.body parsed)
              = (voidRequest p id, [],
                  VoidResult.err ("02Error voiding transaction: " ++ refx))) := by
  intro p refx id parsed
  constructor
  · cases h : parseFetchResponses parsed with
    | ok r => exact Or.inl ⟨r, rfl⟩
    | error m => exact Or.inr ⟨m, rfl⟩
  · intro m hm
    constructor
    · simp [fetch_purchase, hm]
    · simp [void_transaction, hm]

/-- C4 witness: a non-JSON body is decoded to an error and both callers map
it to their decode-error results. -/
theorem c4_witness :
    (fetch_purchase { username := "u", token := "t", reference := "", filename := "" }
        "r" (GatewayResponse.body none)).2
      = Except.error ("00Error voiding transaction: " ++ "r")
    ∧ void_transaction { username := "u", token := "t", reference := "", filename := "" }
        "r" "i" (GatewayResponse.body none)
      = (voidRequest { username := "u", token := "t", reference := "", filename := "" } "i",
          [], VoidResult.err ("02Error voiding transaction: " ++ "r")) :=
  (c4_decode_total_and_mapped
    { username := "u", token := "t", reference := "", filename := "" }
    "r" "i" none).2 "invalid JSON" rfl

/-- C5: on a fetch envelope with `successful=false` the workflow panics when
the `errors` slot is absent (`fe.errors.unwrap()`) and also when the list is
present but empty (`.first().unwrap()`); no generic placeholder message
exists. Only a populated list yields the printed first error and the
`Could not fetch transaction` outcome carrying the supplied reference. -/
theorem c5_fetch_failed_errors_handling :
    fetch_n_void pTest (some "X")
        (GatewayResponse.body (some (Json.obj [("successful", Json.bool false)])))
        GatewayResponse.transportErr
      = { requests := [{ method := Method.get,
                         url := "https://gateway.pmnts-sandbox.io/v1.0/purchases/X" }],
          stdout := [], proc := Proc.panicked }
    ∧ fetch_n_void pTest (some "X")
        (GatewayResponse.body (some (Json.obj [("successful", Json.bool false),
            ("errors", Json.arr [])])))
        GatewayResponse.transportErr
      = { requests := [{ method := Method.get,
                         url := "https://gateway.pmnts-sandbox.io/v1.0/purchases/X" }],
          stdout := [], proc := Proc.panicked }
    ∧ fetch_n_void pTest (some "X")
        (GatewayResponse.body (some (Json.obj [("successful", Json.bool false),
            ("errors", Json.arr [Json.str "not found"])])))
        GatewayResponse.transportErr
      = { requests := [{ method := Method.get,
                         url := "https://gateway.pmnts-sandbox.io/v1.0/purchases/X" }],
          stdout := ["X - Voiding failed - \"not found\""],
          proc := Proc.err ("Could not fetch transaction: " ++ "X") } := by
  refine ⟨?_, ?_, ?_⟩
  · decide
  · decide
  · decide

/-- C6 (counterexample): the file `"r1\nr2\n\nr3\n"` yields the references
`r1, r2, "", r3` — the empty line is processed, not skipped — and a line
with surrounding whitespace is kept verbatim, not stripped. -/
theorem c6_counterexample :
    read_file (some "r1\nr2\n\nr3\n") = ["r1", "r2", "", "r3"]
    ∧ read_file (some "r1\nr2\n\nr3\n") ≠ ["r1", "r2", "r3"]
    ∧ read_file (some " r1 \n") = [" r1 "] := by
  refine ⟨?_, ?_, ?_⟩
  · decide
  · decide
  · decide

/-- C6 (amended): the references processed in batch mode are the file's
LF-delimited lines in order, kept verbatim: empty lines are not skipped and
leading/trailing whitespace is not stripped, so `"r1\nr2\n\nr3\n"` is
processed as the four references `r1, r2, "" , r3` — the empty line
producing a fetch of the bare purchases base URL. -/
theorem c6_lines_processed_verbatim :
    mainRun "u" "t" none (some "refs.txt") (some "r1\nr2\n\nr3\n") orcT
      = { requests := [{ method := Method.get,
                         url := "https://gateway.pmnts.io/v1.0/purchases/r1" },
                       { method := Method.get,
                         url := "https://gateway.pmnts.io/v1.0/purchases/r2" },
                       { method := Method.get,
                         url := "https://gateway.pmnts.io/v1.0/purchases/" },
                       { method := Method.get,
                         url := "https://gateway.pmnts.io/v1.0/purchases/r3" }],
          stdout := [], proc := Proc.ok }
    ∧ read_file (some " r1 \nr2\n") = [" r1 ", "r2"] := by
  constructor
  · decide
  · decide

/-- C7 (counterexample): a per-reference failure can abort the batch. With a
file of two references where the gateway answers the first fetch with
`successful=false` and no `errors` field, the workflow panics on the first
reference, the second is never processed — only one request is issued — and
the process terminates abnormally instead of exiting 0. -/
theorem c7_counterexample :
    mainRun "u" "t" none (some "refs.txt") (some "a\nb\n")
        (fun _ => (GatewayResponse.body (some (Json.obj [("successful", Json.bool false)])),
                   GatewayResponse.transportErr))
      = { requests := [{ method := Method.get,
                         url := "https://gateway.pmnts.io/v1.0/purchases/a" }],
          stdout := [], proc := Proc.panicked } := by
  decide

/-- C7 (amended): the batch driver is panic-sensitive. When no reference's
processing panics, the loop drains the whole input — every reference is
processed in input order, with all requests and output concatenated — and the
process exits 0 regardless of per-item `Err` outcomes; an unopenable input
file or an empty one yields the non-zero `"Error opening file"` exit. A
workflow panic, however, aborts the remainder of the batch. -/
theorem c7_batch_drains_without_panics :
    (∀ (p : Params) (oracle : Nat → GatewayResponse × GatewayResponse)
        (lines : List String),
      (∀ i (h : i < lines.length),
          (fetch_n_void p (some (lines.get ⟨i, h⟩)) (oracle i).1 (oracle i).2).proc
            ≠ Proc.panicked) →
      runBatch p oracle lines
        = { requests := (drainAll p oracle lines).1,
            stdout := (drainAll p oracle lines).2, proc := Proc.ok })
    ∧ (∀ (u t : String) (r : Option String) (f : String)
        (oracle : Nat → GatewayResponse × GatewayResponse),
      f.length ≠ 0 →
      mainRun u t r (some f) none oracle
        = { requests := [], stdout := [],
            proc := Proc.err ("Error opening file: " ++ "please check file and path") })
    ∧ (∀ (u t : String) (r : Option String) (f : String)
        (oracle : Nat → GatewayResponse × GatewayResponse),
      f.length ≠ 0 →
      mainRun u t r (some f) (some "") oracle
        = { requests := [], stdout := [],
            proc := Proc.err ("Error opening file: " ++ "please check file and path") }) := by
  refine ⟨?_, ?_, ?_⟩
  · intro p oracle lines
    induction lines generalizing oracle with
    | nil => intro _; rfl
    | cons l ls ih =>
      intro H
      have h0 : (fetch_n_void p (some l) (oracle 0).1 (oracle 0).2).proc ≠ Proc.panicked :=
        H 0 (by simp)
      have hrest := ih (fun i => oracle (i + 1))
        (fun i h => H (i + 1) (by simpa using Nat.succ_lt_succ h))
      simp only [runBatch, drainAll, if_neg h0, hrest]
  · intro u t r f oracle hf
    cases r with
    | none =>
      simp only [mainRun, buildParams, read_file]
      rw [if_neg hf]
      rfl
    | some rv =>
      simp only [mainRun, buildParams, read_file]
      rw [if_neg hf]
      rfl
  · intro u t r f oracle hf
    cases r with
    | none =>
      simp only [mainRun, buildParams, read_file]
      rw [if_neg hf]
      rfl
    | some rv =>
      simp only [mainRun, buildParams, read_file]
      rw [if_neg hf]
      rfl

/-- C7 witness: a one-line batch whose fetch fails at the transport level
does not panic, so the driver drains it and returns `Ok`, and a missing
input file yields the error exit. -/
theorem c7_witness :
    runBatch pRefs orcT ["a"]
      = { requests := [{ method := Method.get,
                         url := "https://gateway.pmnts.io/v1.0/purchases/a" }],
          stdout := [], proc := Proc.ok }
    ∧ mainRun "u" "t" none (some "refs.txt") none orcT
      = { requests := [], stdout := [],
          proc := Proc.err ("Error opening file: " ++ "please check file and path") } := by
  constructor
  · have h := c7_batch_drains_without_panics.1 pRefs orcT ["a"]
      (by
        intro i h
        cases i with
        | zero =>
          show (fetch_n_void pRefs (some "a") (orcT 0).1 (orcT 0).2).proc ≠ Proc.panicked
          decide
        | succ n => simp at h)
    rw [h]
    decide
  · exact c7_batch_drains_without_panics.2.1 "u" "t" none "refs.txt" orcT (by decide)

/-- C9: the fetch and void bases are the sandbox URLs (host
`gateway.pmnts-sandbox.io`) exactly for the literal merchant ids `"SC-scnet"`
and `"TEST"`, and for every other string they are the production URLs, which
begin with `https://gateway.pmnts.io/`. -/
theorem c9_endpoint_selection :
    ∀ m : String,
      (Url.new.get_fetch_url m = Url.new.sandbox_fetch_url
          ↔ (m = "SC-scnet" ∨ m = "TEST"))
      ∧ (Url.new.get_void_url m = Url.new.sandbox_void_url
          ↔ (m = "SC-scnet" ∨ m = "TEST"))
      ∧ (m ≠ "SC-scnet" → m ≠ "TEST" →
          Url.new.get_fetch_url m = Url.new.production_fetch_url
          ∧ Url.new.get_void_url m = Url.new.production_void_url)
      ∧ Url.new.sandbox_fetch_url = "https://gateway.pmnts-sandbox.io/" ++ "v1.0/purchases/"
      ∧ Url.new.sandbox_void_url
          = "https://gateway.pmnts-sandbox.io/" ++ "v1.0/purchases/void?id="
      ∧ Url.new.production_fetch_url = "https://gateway.pmnts.io/" ++ "v1.0/purchases/"
      ∧ Url.new.production_void_url
          = "https://gateway.pmnts.io/" ++ "v1.0/purchases/void?id=" := by
  intro m
  by_cases h1 : m = "SC-scnet"
  · subst h1
    decide
  · by_cases h2 : m = "TEST"
    · subst h2
      decide
    · have hf : Url.new.get_fetch_url m = Url.new.production_fetch_url := by
        simp [Url.get_fetch_url, h1, h2]
      have hv : Url.new.get_void_url m = Url.new.production_void_url := by
        simp [Url.get_void_url, h1, h2]
      refine ⟨?_, ?_, fun _ _ => ⟨hf, hv⟩, by decide, by decide, by decide, by decide⟩
      · rw [hf]
        constructor
        · intro he
          exact absurd he (by decide)
        · intro hor
          rcases hor with h | h
          · exact absurd h h1
          · exact absurd h h2
      · rw [hv]
        constructor
        · intro he
          exact absurd he (by decide)
        · intro hor
          rcases hor with h | h
          · exact absurd h h1
          · exact absurd h h2

/-- C9 witness: a merchant id outside the sandbox set selects the production
bases. -/
theorem c9_witness :
    Url.new.get_fetch_url "LIVE-1" = Url.new.production_fetch_url
    ∧ Url.new.get_void_url "LIVE-1" = Url.new.production_void_url :=
  (c9_endpoint_selection "LIVE-1").2.2.1 (by decide) (by decide)

/-- C10: the merchant identifier used for endpoint selection is the username
credential itself: for every parameter set, the fetch request's URL is
`get_fetch_url` of `params.username` with the reference appended, and the
void request's URL is `get_void_url` of `params.username` with the internal
id appended; `Params` carries no other merchant-id input. -/
theorem c10_merchant_id_is_username :
    ∀ (p : Params) (refx id : String) (fRes vRes : GatewayResponse),
      (fetch_purchase p refx fRes).1
        = { method := Method.get, url := Url.new.get_fetch_url p.username ++ refx }
      ∧ (void_transaction p refx id vRes).1
        = { method := Method.post, url := Url.new.get_void_url p.username ++ id } := by
  intro p refx id fRes vRes
  exact ⟨rfl, rfl⟩

end Fzvoid
